import Mathlib

/-!
Verification of the restricted code-execution sandbox
(`code_execution_env.py`, `mcp_server.py`, `agent.py`).

The development shallowly embeds the sandbox: a small Python-subset
abstract syntax (the fragment the executed agent programs use), the
static validator `validate_code`, a model of RestrictedPython's
`compile_restricted_exec` front end, the execution session
`execute_code` (stream redirection, fresh local namespace, fault
capture, envelope assembly), the pipeline entry `execute_agent_code`,
the mock MCP tool layer, and the skill store of `agent.py`.

Modelling conventions:
- Python dicts whose key set matters (the result envelope, local and
  global namespaces) are association lists `List (String × _)`.
- Machine-level concerns (reference identity, float timestamps) are
  abstracted: `time.time()` is read from an explicit `World` value.
- RestrictedPython is an external library; it is modelled from how
  this repository configures it: compilation rejects identifiers that
  start with an underscore, `global` statements are allowed (the
  transformer's `visit_Global` passes them through) and make
  assignments write into the shared `safe_globals` dict, and no
  `_write_` guard is provided (line 85), so subscript and attribute
  assignment fault at runtime.
- Printing: the repository binds `_print_` to the identity lambda
  (line 71), but RestrictedPython compiles `print(...)` to
  `_print._call_print(...)` where `_print = _print_(_getattr_)`; with
  the identity hook `_print` is the `getattr` builtin, so every
  executed `print` raises an `AttributeError` before writing anything.
- Imports: the exec frame's builtins are `safe_globals['__builtins__']`
  (lines 35-69), which has no `__import__` key — the `__import__`
  binding of line 75 sits at the top level of `safe_globals`, where
  the import machinery never looks — so every `import` statement in
  executed code raises `ImportError: __import__ not found`.
-/

namespace CodeExec

/-- A process output channel (`sys.stdout` / `sys.stderr` values). -/
inductive Chan where
  | hostChan (n : Nat)
  | stdoutCapture
  | stderrCapture
deriving DecidableEq

/-- The process-wide stream state: the current bindings of
`sys.stdout` and `sys.stderr`. -/
structure SysState where
  stdout : Chan
  stderr : Chan
deriving DecidableEq

/-- External-service state visible to the mock tools: the clock read
by `time.time()` (timestamps are abstracted to integers; the mock
stores themselves are stateless). -/
structure World where
  now : Int
deriving DecidableEq

/-- The capability functions exposed to executed code
(`mcp_server.py` wrappers plus the generic `call_mcp_tool`). -/
inductive Cap where
  | getDocument
  | updateSalesforceRecord
  | sendSlackMessage
  | getSlackMessages
  | getSheetData
  | updateSheet
  | callMcpToolCap
deriving DecidableEq

/-- Host-side objects that can be bound in the execution globals:
capability functions, the RestrictedPython guard hooks, host modules,
members obtained by from-import, and entries of the safe builtins
dict. -/
inductive HostObj where
  | cap (c : Cap)
  | printHook
  | guardHook (name : String)
  | importFn
  | builtinsDict
  | builtin (name : String)
  | moduleRef (name : String)
  | moduleMember (modName : String) (member : String)
deriving DecidableEq

mutual
/-- Python values manipulated by executed programs and returned by the
mock tools. -/
inductive Value where
  | none
  | bool (b : Bool)
  | int (n : Int)
  | str (s : String)
  | list (xs : VList)
  | dict (xs : VDict)
  | hostObj (h : HostObj)

/-- A Python list of values. -/
inductive VList where
  | nil
  | cons (v : Value) (tl : VList)

/-- A Python dict with string keys, in insertion order. -/
inductive VDict where
  | nil
  | cons (k : String) (v : Value) (tl : VDict)
end

/-- Lookup in a string-keyed association list (Python dict access). -/
def lookupStr {α : Type} : List (String × α) → String → Option α
  | [], _ => Option.none
  | (k, v) :: tl, key => if k = key then some v else lookupStr tl key

/-- Dict update: replace the value under an existing key in place,
else append (Python dict assignment). -/
def setKey {α : Type} : List (String × α) → String → α → List (String × α)
  | [], key, v => [(key, v)]
  | (k, w) :: tl, key, v =>
      if k = key then (key, v) :: tl else (k, w) :: setKey tl key v

/-- Lookup in a `VDict` value. -/
def vdictLookup : VDict → String → Option Value
  | VDict.nil, _ => Option.none
  | VDict.cons k v tl, key => if k = key then some v else vdictLookup tl key

/-- Number of entries of a `VDict` (Python `len` on a dict). -/
def vdictLen : VDict → Nat
  | VDict.nil => 0
  | VDict.cons _ _ tl => vdictLen tl + 1

/-- Number of elements of a `VList` (Python `len` on a list). -/
def vlistLen : VList → Nat
  | VList.nil => 0
  | VList.cons _ tl => vlistLen tl + 1

mutual
/-- Structural equality of values (Python `==` on the fragment the
mock tools compare; the `bool`/`int` numeric identification of Python
is not needed by any compared pair in the sources). -/
def valueBeq : Value → Value → Bool
  | Value.none, Value.none => true
  | Value.bool a, Value.bool b => a == b
  | Value.int a, Value.int b => a == b
  | Value.str a, Value.str b => a == b
  | Value.list a, Value.list b => vlistBeq a b
  | Value.dict a, Value.dict b => vdictBeq a b
  | Value.hostObj a, Value.hostObj b => a == b
  | _, _ => false

def vlistBeq : VList → VList → Bool
  | VList.nil, VList.nil => true
  | VList.cons a as, VList.cons b bs => valueBeq a b && vlistBeq as bs
  | _, _ => false

def vdictBeq : VDict → VDict → Bool
  | VDict.nil, VDict.nil => true
  | VDict.cons k a as, VDict.cons k' b bs =>
      k == k' && valueBeq a b && vdictBeq as bs
  | _, _ => false
end

mutual
/-- Python `repr` of a value (string escape sequences are not
modelled; host objects get a fixed placeholder). -/
def pyRepr : Value → String
  | Value.none => "None"
  | Value.bool true => "True"
  | Value.bool false => "False"
  | Value.int n => toString n
  | Value.str s => "\x27" ++ s ++ "\x27"
  | Value.list xs => "[" ++ pyReprList xs ++ "]"
  | Value.dict xs => "\x7b" ++ pyReprDict xs ++ "\x7d"
  | Value.hostObj _ => "<host object>"

def pyReprList : VList → String
  | VList.nil => ""
  | VList.cons v VList.nil => pyRepr v
  | VList.cons v (VList.cons w tl) =>
      pyRepr v ++ ", " ++ pyReprList (VList.cons w tl)

def pyReprDict : VDict → String
  | VDict.nil => ""
  | VDict.cons k v VDict.nil => "\x27" ++ k ++ "\x27: " ++ pyRepr v
  | VDict.cons k v (VDict.cons k' w tl) =>
      "\x27" ++ k ++ "\x27: " ++ pyRepr v ++ ", " ++
        pyReprDict (VDict.cons k' w tl)
end

/-- Python `str` of a value. -/
def pyStr : Value → String
  | Value.str s => s
  | v => pyRepr v

/-- Python `repr` of a list of strings, as rendered by an f-string
such as `f"... {error_log}"`. -/
def pyReprOfStringList (xs : List String) : String :=
  "[" ++ String.intercalate ", " (xs.map (fun s => "\x27" ++ s ++ "\x27")) ++ "]"

/-! ## Mock MCP tool layer (`mcp_server.py`) -/

/-- Model of `GoogleDriveTool.execute`. -/
def googleDriveExecute (op : Value) (kwargs : List (String × Value)) : Value :=
  if valueBeq op (Value.str "get_document") then
    let document_id := (lookupStr kwargs "document_id").getD Value.none
    if valueBeq document_id (Value.str "abc123") then
      Value.dict (VDict.cons "id" (Value.str "abc123")
        (VDict.cons "title" (Value.str "Q4目标会议纪要")
          (VDict.cons "content"
            (Value.str "讨论了Q4目标...\n完整纪要文本，包含大量详细内容和数据...")
            VDict.nil)))
    else
      Value.dict (VDict.cons "error" (Value.str "Document not found") VDict.nil)
  else if valueBeq op (Value.str "upload_file") then
    Value.dict (VDict.cons "status" (Value.str "uploaded")
      (VDict.cons "file_id" (Value.str "xyz789") VDict.nil))
  else
    Value.dict (VDict.cons "error"
      (Value.str ("Operation " ++ pyStr op ++ " not supported")) VDict.nil)

/-- Model of `SalesforceTool.execute`. -/
def salesforceExecute (op : Value) (kwargs : List (String × Value)) : Value :=
  if valueBeq op (Value.str "update_record") then
    let record_id := (lookupStr kwargs "record_id").getD Value.none
    let data := (lookupStr kwargs "data").getD Value.none
    Value.dict (VDict.cons "status" (Value.str "success")
      (VDict.cons "record_id" record_id
        (VDict.cons "updated_fields"
          (Value.int (match data with
            | Value.dict d => (vdictLen d : Int)
            | _ => 1))
          VDict.nil)))
  else if valueBeq op (Value.str "query_records") then
    Value.list (VList.cons
      (Value.dict (VDict.cons "id" (Value.str "rec1")
        (VDict.cons "name" (Value.str "客户A")
          (VDict.cons "status" (Value.str "active") VDict.nil))))
      (VList.cons
        (Value.dict (VDict.cons "id" (Value.str "rec2")
          (VDict.cons "name" (Value.str "客户B")
            (VDict.cons "status" (Value.str "inactive") VDict.nil))))
        VList.nil))
  else
    Value.dict (VDict.cons "error"
      (Value.str ("Operation " ++ pyStr op ++ " not supported")) VDict.nil)

/-- Model of `SlackTool.execute` (`time.time()` is read from the world clock). -/
def slackExecute (w : World) (op : Value) (kwargs : List (String × Value)) : Value :=
  if valueBeq op (Value.str "send_message") then
    let channel := (lookupStr kwargs "channel").getD Value.none
    Value.dict (VDict.cons "status" (Value.str "sent")
      (VDict.cons "channel" channel
        (VDict.cons "ts" (Value.int w.now) VDict.nil)))
  else if valueBeq op (Value.str "get_messages") then
    Value.list (VList.cons
      (Value.dict (VDict.cons "user" (Value.str "U123")
        (VDict.cons "text" (Value.str "部署开始")
          (VDict.cons "ts" (Value.int (w.now - 300)) VDict.nil))))
      (VList.cons
        (Value.dict (VDict.cons "user" (Value.str "U123")
          (VDict.cons "text" (Value.str "部署完成")
            (VDict.cons "ts" (Value.int (w.now - 60)) VDict.nil))))
        VList.nil))
  else
    Value.dict (VDict.cons "error"
      (Value.str ("Operation " ++ pyStr op ++ " not supported")) VDict.nil)

/-- Model of `GoogleSheetsTool.execute`. -/
def sheetsExecute (op : Value) (kwargs : List (String × Value)) : Value :=
  if valueBeq op (Value.str "get_sheet_data") then
    Value.list (VList.cons
      (Value.dict (VDict.cons "name" (Value.str "张三")
        (VDict.cons "email" (Value.str "zhangsan@example.com")
          (VDict.cons "phone" (Value.str "13800138000")
            (VDict.cons "department" (Value.str "销售") VDict.nil)))))
      (VList.cons
        (Value.dict (VDict.cons "name" (Value.str "李四")
          (VDict.cons "email" (Value.str "lisi@example.com")
            (VDict.cons "phone" (Value.str "13800138001")
              (VDict.cons "department" (Value.str "技术") VDict.nil)))))
        (VList.cons
          (Value.dict (VDict.cons "name" (Value.str "王五")
            (VDict.cons "email" (Value.str "wangwu@example.com")
              (VDict.cons "phone" (Value.str "13800138002")
                (VDict.cons "department" (Value.str "市场") VDict.nil)))))
          VList.nil)))
  else if valueBeq op (Value.str "update_sheet") then
    Value.dict (VDict.cons "status" (Value.str "updated")
      (VDict.cons "rows_affected"
        ((lookupStr kwargs "rows_count").getD (Value.int 0)) VDict.nil))
  else
    Value.dict (VDict.cons "error"
      (Value.str ("Operation " ++ pyStr op ++ " not supported")) VDict.nil)

/-- The registered tool names of `MCPServer.__init__`. -/
def mcpToolNames : List String :=
  ["google_drive", "salesforce", "slack", "google_sheets"]

/-- Model of `MCPServer.call_tool`: unknown tool yields an error dict; a tool
call raising (here: the `operation` keyword missing) is caught and
converted to an error dict; otherwise the tool result is wrapped in a
success envelope. -/
def callToolServer (w : World) (toolName : String)
    (kwargs : List (String × Value)) : Value :=
  if mcpToolNames.contains toolName = false then
    Value.dict (VDict.cons "error"
      (Value.str ("Tool " ++ toolName ++ " not found")) VDict.nil)
  else
    match lookupStr kwargs "operation" with
    | Option.none =>
        Value.dict (VDict.cons "error"
          (Value.str "execute() missing 1 required positional argument: \x27operation\x27")
          VDict.nil)
    | some op =>
        let r :=
          if toolName = "google_drive" then googleDriveExecute op kwargs
          else if toolName = "salesforce" then salesforceExecute op kwargs
          else if toolName = "slack" then slackExecute w op kwargs
          else sheetsExecute op kwargs
        Value.dict (VDict.cons "success" (Value.bool true)
          (VDict.cons "result" r VDict.nil))

/-- The capability wrappers of `mcp_server.py` (`get_document`,
`update_salesforce_record`, ...), applied to positional argument
lists; a wrong argument count is the corresponding `TypeError`. -/
def applyCap (w : World) (c : Cap) (args : List Value) : Except String Value :=
  match c, args with
  | Cap.getDocument, [did] =>
      Except.ok (callToolServer w "google_drive"
        [("operation", Value.str "get_document"), ("document_id", did)])
  | Cap.updateSalesforceRecord, [rid, data] =>
      Except.ok (callToolServer w "salesforce"
        [("operation", Value.str "update_record"), ("record_id", rid),
         ("data", data)])
  | Cap.sendSlackMessage, [channel, message] =>
      Except.ok (callToolServer w "slack"
        [("operation", Value.str "send_message"), ("channel", channel),
         ("message", message)])
  | Cap.getSlackMessages, [channel] =>
      Except.ok (callToolServer w "slack"
        [("operation", Value.str "get_messages"), ("channel", channel)])
  | Cap.getSheetData, [sheetId] =>
      Except.ok (callToolServer w "google_sheets"
        [("operation", Value.str "get_sheet_data"), ("sheet_id", sheetId)])
  | Cap.updateSheet, [sheetId, data] =>
      Except.ok (callToolServer w "google_sheets"
        [("operation", Value.str "update_sheet"), ("sheet_id", sheetId),
         ("data", data)])
  | Cap.callMcpToolCap, [] =>
      Except.error "call_mcp_tool() missing 1 required positional argument: \x27tool_name\x27"
  | Cap.callMcpToolCap, [Value.str toolName] =>
      Except.ok (callToolServer w toolName [])
  | Cap.callMcpToolCap, [v] =>
      -- a hashable non-string tool name is simply not a key of the
      -- tools dict (unhashable arguments are not modelled)
      Except.ok (Value.dict (VDict.cons "error"
        (Value.str ("Tool " ++ pyStr v ++ " not found")) VDict.nil))
  | Cap.callMcpToolCap, _ :: _ :: _ =>
      Except.error "call_mcp_tool() takes 1 positional argument but more were given"
  | _, _ => Except.error "capability function: invalid arguments"

/-! ## Abstract syntax of the executed agent programs

The fragment of Python the submitted agent programs use: literals,
names, subscripting, addition, dict displays, calls of plain names;
statements are imports, `global` declarations, assignments,
expression statements, `print` calls, `raise ValueError(...)`, and
subscript/attribute assignment (which RestrictedPython compiles
through the absent `_write_` guard).
-/

mutual
inductive Expr where
  | lit (v : Value)
  | var (x : String)
  | subscript (e : Expr) (idx : Expr)
  | binAdd (a : Expr) (b : Expr)
  | dictE (entries : EntryList)
  | call (f : String) (args : ExprList)

inductive ExprList where
  | nil
  | cons (e : Expr) (tl : ExprList)

inductive EntryList where
  | nil
  | cons (k : String) (e : Expr) (tl : EntryList)
end

inductive Stmt where
  | importStmt (names : List String)
  | importFrom (modName : String) (names : List String)
  | globalStmt (names : List String)
  | assign (x : String) (e : Expr)
  | exprStmt (e : Expr)
  | printStmt (e : Expr)
  | raiseStmt (msg : String)
  | setItem (target : Expr) (idx : Expr) (e : Expr)
  | setAttr (target : Expr) (attr : String) (e : Expr)

abbrev Program := List Stmt

/-- The globals dict handed to `exec`: it initially binds host
objects, but a `global`-declared assignment in executed code can
store an arbitrary value under any key, so entries are full
values. -/
abbrev Globals := List (String × Value)

/-- The names a `global` statement anywhere in the module scope
declares (a compile-time scope property in Python: assignments to
these names compile to global stores wherever the declaration
appears). -/
def stmtGlobalDecls : Stmt → List String
  | Stmt.globalStmt names => names
  | _ => []

/-- All `global`-declared names of a program's module scope. -/
def globalDecls (p : Program) : List String :=
  (p.map stmtGlobalDecls).flatten

/-- The top-level package a dotted import binds (`import os.path`
binds the name `os`). -/
def rootName (s : String) : String := (s.splitOn ".").headD s

/-- Modules importable on the host Python installation, used only to
model a direct call to the `__import__` function that sits at the top
level of `safe_globals` (line 75). Import *statements* never consult
this list: the import machinery looks `__import__` up in the exec
frame's builtins — `safe_globals['__builtins__']` — which has no such
key, so import statements fault (see `runStmt`). -/
def availableModules : List String :=
  ["math", "random", "datetime", "collections", "itertools",
   "functools", "operator", "json", "re", "urllib", "urllib.parse",
   "time", "os", "os.path", "sys", "subprocess", "shutil", "socket",
   "urllib.request"]

/-- The `'__builtins__'` dict of `CodeExecutionEnvironment.__init__`
(lines 35-69): the allow-listed builtins and the `json` module. Note
there is no `__import__` entry here. -/
def safeBuiltins : List (String × HostObj) :=
  [("len", HostObj.builtin "len"), ("str", HostObj.builtin "str"),
   ("int", HostObj.builtin "int"), ("float", HostObj.builtin "float"),
   ("bool", HostObj.builtin "bool"), ("list", HostObj.builtin "list"),
   ("dict", HostObj.builtin "dict"), ("tuple", HostObj.builtin "tuple"),
   ("range", HostObj.builtin "range"),
   ("enumerate", HostObj.builtin "enumerate"),
   ("zip", HostObj.builtin "zip"), ("max", HostObj.builtin "max"),
   ("min", HostObj.builtin "min"), ("sum", HostObj.builtin "sum"),
   ("abs", HostObj.builtin "abs"), ("round", HostObj.builtin "round"),
   ("pow", HostObj.builtin "pow"), ("divmod", HostObj.builtin "divmod"),
   ("sorted", HostObj.builtin "sorted"),
   ("reversed", HostObj.builtin "reversed"),
   ("all", HostObj.builtin "all"), ("any", HostObj.builtin "any"),
   ("isinstance", HostObj.builtin "isinstance"),
   ("issubclass", HostObj.builtin "issubclass"),
   ("type", HostObj.builtin "type"),
   ("Exception", HostObj.builtin "Exception"),
   ("ValueError", HostObj.builtin "ValueError"),
   ("TypeError", HostObj.builtin "TypeError"),
   ("KeyError", HostObj.builtin "KeyError"),
   ("IndexError", HostObj.builtin "IndexError"),
   ("AttributeError", HostObj.builtin "AttributeError"),
   ("ZeroDivisionError", HostObj.builtin "ZeroDivisionError"),
   ("json", HostObj.moduleRef "json")]

/-- Model of `self.safe_globals` of `CodeExecutionEnvironment.__init__`: the
builtins dict, the RestrictedPython guard hooks (note: no `_write_`),
`__import__`, the tool API functions, and the safe standard-library
modules added by the loop over `safe_modules` (the key
`'urllib.parse'` holds the top-level `urllib` package, as
`__import__` returns the top-level module). -/
def safeGlobals : Globals :=
  [("__builtins__", Value.hostObj HostObj.builtinsDict),
   ("_print_", Value.hostObj HostObj.printHook),
   ("_getitem_", Value.hostObj (HostObj.guardHook "_getitem_")),
   ("_getiter_", Value.hostObj (HostObj.guardHook "_getiter_")),
   ("_iter_unpack_sequence_",
    Value.hostObj (HostObj.guardHook "_iter_unpack_sequence_")),
   ("__import__", Value.hostObj HostObj.importFn),
   ("_unpack_sequence_", Value.hostObj (HostObj.guardHook "_unpack_sequence_")),
   ("_abs_", Value.hostObj (HostObj.guardHook "_abs_")),
   ("_min_", Value.hostObj (HostObj.guardHook "_min_")),
   ("_max_", Value.hostObj (HostObj.guardHook "_max_")),
   ("_sum_", Value.hostObj (HostObj.guardHook "_sum_")),
   ("_getattr_", Value.hostObj (HostObj.guardHook "_getattr_")),
   ("_setattr_", Value.hostObj (HostObj.guardHook "_setattr_")),
   ("_delattr_", Value.hostObj (HostObj.guardHook "_delattr_")),
   ("_getpath_", Value.hostObj (HostObj.guardHook "_getpath_")),
   ("get_document", Value.hostObj (HostObj.cap Cap.getDocument)),
   ("update_salesforce_record",
    Value.hostObj (HostObj.cap Cap.updateSalesforceRecord)),
   ("send_slack_message", Value.hostObj (HostObj.cap Cap.sendSlackMessage)),
   ("get_slack_messages", Value.hostObj (HostObj.cap Cap.getSlackMessages)),
   ("get_sheet_data", Value.hostObj (HostObj.cap Cap.getSheetData)),
   ("update_sheet", Value.hostObj (HostObj.cap Cap.updateSheet)),
   ("call_mcp_tool", Value.hostObj (HostObj.cap Cap.callMcpToolCap)),
   ("math", Value.hostObj (HostObj.moduleRef "math")),
   ("random", Value.hostObj (HostObj.moduleRef "random")),
   ("datetime", Value.hostObj (HostObj.moduleRef "datetime")),
   ("collections", Value.hostObj (HostObj.moduleRef "collections")),
   ("itertools", Value.hostObj (HostObj.moduleRef "itertools")),
   ("functools", Value.hostObj (HostObj.moduleRef "functools")),
   ("operator", Value.hostObj (HostObj.moduleRef "operator")),
   ("json", Value.hostObj (HostObj.moduleRef "json")),
   ("re", Value.hostObj (HostObj.moduleRef "re")),
   ("urllib.parse", Value.hostObj (HostObj.moduleRef "urllib")),
   ("time", Value.hostObj (HostObj.moduleRef "time"))]

/-! ## Expression evaluation under the restricted environment -/

/-- The builtins `len` and `str` are given their real semantics; the remaining
allow-listed builtins are resolvable names whose application is
outside the modelled fragment and yields a modelling fault (no claim
evaluates them). -/
def applyBuiltin (n : String) (args : List Value) : Except String Value :=
  if n = "len" then
    match args with
    | [Value.str s] => Except.ok (Value.int (s.length : Int))
    | [Value.list xs] => Except.ok (Value.int (vlistLen xs : Int))
    | [Value.dict d] => Except.ok (Value.int (vdictLen d : Int))
    | _ => Except.error "object has no len()"
  else if n = "str" then
    match args with
    | [v] => Except.ok (Value.str (pyStr v))
    | _ => Except.error "str() arguments not modelled"
  else
    Except.error ("builtin \x27" ++ n ++ "\x27 application is not modelled")

/-- Application of a host object as a first-class function value. The
`_print_` entry is the identity lambda of `code_execution_env.py`
line 71: applied directly it returns its argument. Executed `print`
statements do not reach it usefully — they fault in the compiled
print-collector protocol first (see `printFaultMessage`). -/
def applyHost (w : World) (h : HostObj) (args : List Value) : Except String Value :=
  match h with
  | HostObj.cap c => applyCap w c args
  | HostObj.printHook =>
      match args with
      | [v] => Except.ok v
      | _ => Except.error "print hook: invalid arguments"
  | HostObj.guardHook n =>
      Except.error ("guard hook \x27" ++ n ++ "\x27 application is not modelled")
  | HostObj.importFn =>
      match args with
      | [Value.str m] =>
          if availableModules.contains m then
            Except.ok (Value.hostObj (HostObj.moduleRef (rootName m)))
          else
            Except.error ("No module named \x27" ++ m ++ "\x27")
      | _ => Except.error "__import__ arguments not modelled"
  | HostObj.builtinsDict => Except.error "\x27dict\x27 object is not callable"
  | HostObj.builtin n => applyBuiltin n args
  | HostObj.moduleRef _ => Except.error "\x27module\x27 object is not callable"
  | HostObj.moduleMember _ n =>
      Except.error ("call of imported member \x27" ++ n ++ "\x27 is not modelled")

/-- Application of a value bound in the local namespace. -/
def applyValue (w : World) (v : Value) (args : List Value) : Except String Value :=
  match v with
  | Value.hostObj h => applyHost w h args
  | _ => Except.error "object is not callable"

/-- Python name resolution: local namespace, then the globals dict,
then the builtins. -/
def resolveName (g : Globals) (locals : List (String × Value))
    (x : String) : Except String Value :=
  match lookupStr locals x with
  | some v => Except.ok v
  | Option.none =>
      match lookupStr g x with
      | some v => Except.ok v
      | Option.none =>
          match lookupStr safeBuiltins x with
          | some h => Except.ok (Value.hostObj h)
          | Option.none =>
              Except.error ("name \x27" ++ x ++ "\x27 is not defined")

/-- List indexing with Python's negative-index convention. -/
def vlistGet (xs : VList) (n : Int) : Except String Value :=
  let len : Int := (vlistLen xs : Int)
  let i : Int := if n < 0 then n + len else n
  if 0 ≤ i ∧ i < len then
    let rec go : VList → Nat → Except String Value
      | VList.nil, _ => Except.error "list index out of range"
      | VList.cons v _, 0 => Except.ok v
      | VList.cons _ tl, k + 1 => go tl k
    go xs i.toNat
  else Except.error "list index out of range"

/-- Subscription, as routed through the `_getitem_` guard
(`lambda ob, index: ob[index]`). -/
def getItem (ob : Value) (idx : Value) : Except String Value :=
  match ob, idx with
  | Value.dict d, Value.str k =>
      match vdictLookup d k with
      | some v => Except.ok v
      | Option.none => Except.error ("\x27" ++ k ++ "\x27")
  | Value.list xs, Value.int n => vlistGet xs n
  | _, _ => Except.error "object is not subscriptable"

/-- Python `+` on the modelled value fragment. -/
def binAddValues : Value → Value → Except String Value
  | Value.int a, Value.int b => Except.ok (Value.int (a + b))
  | Value.str a, Value.str b => Except.ok (Value.str (a ++ b))
  | _, _ => Except.error "unsupported operand type(s) for +"

mutual
/-- Evaluate an expression against the globals and the call-local
namespace. Expression evaluation mutates no state: the only
observable effects of the modelled fragment are through statement
execution. -/
def evalExpr (w : World) (g : Globals) (locals : List (String × Value)) :
    Expr → Except String Value
  | Expr.lit v => Except.ok v
  | Expr.var x => resolveName g locals x
  | Expr.subscript e idx => do
      let ov ← evalExpr w g locals e
      let iv ← evalExpr w g locals idx
      getItem ov iv
  | Expr.binAdd a b => do
      let av ← evalExpr w g locals a
      let bv ← evalExpr w g locals b
      binAddValues av bv
  | Expr.dictE entries => do
      let d ← evalEntries w g locals entries
      Except.ok (Value.dict d)
  | Expr.call f args => do
      let vs ← evalArgs w g locals args
      match lookupStr locals f with
      | some v => applyValue w v vs
      | Option.none =>
          match lookupStr g f with
          | some v => applyValue w v vs
          | Option.none =>
              match lookupStr safeBuiltins f with
              | some h => applyHost w h vs
              | Option.none =>
                  Except.error ("name \x27" ++ f ++ "\x27 is not defined")

def evalArgs (w : World) (g : Globals) (locals : List (String × Value)) :
    ExprList → Except String (List Value)
  | ExprList.nil => Except.ok []
  | ExprList.cons e tl => do
      let v ← evalExpr w g locals e
      let vs ← evalArgs w g locals tl
      Except.ok (v :: vs)

def evalEntries (w : World) (g : Globals) (locals : List (String × Value)) :
    EntryList → Except String VDict
  | EntryList.nil => Except.ok VDict.nil
  | EntryList.cons k e tl => do
      let v ← evalExpr w g locals e
      let d ← evalEntries w g locals tl
      Except.ok (VDict.cons k v d)
end

/-! ## Statement execution (`exec(byte_code, self.safe_globals, local_vars)`) -/

/-- The interpreter state of one execution: the globals dict passed
to `exec`, the fresh call-local variable namespace, and the contents
of the `stdout_capture` buffer. -/
structure ExecSt where
  globals : Globals
  locals : List (String × Value)
  output : String

/-- The fault every executed `print` raises. RestrictedPython
compiles `print(x)` to `_print._call_print(x)` after injecting
`_print = _print_(_getattr_)` at the top of the scope; with the
repository's `_print_ = lambda x: x` (line 71) and `_getattr_ =
getattr` (line 81), `_print` is the `getattr` builtin, so evaluating
the callee `_print._call_print` raises this `AttributeError` — the
print argument is never evaluated and nothing is written. -/
def printFaultMessage : String :=
  "\x27builtin_function_or_method\x27 object has no attribute \x27_call_print\x27"

/-- The fault every executed `import` statement raises: the import
machinery looks `__import__` up in the exec frame's builtins, which
are `safe_globals['__builtins__']` (lines 35-69) — a dict with no
`__import__` key (the binding of line 75 sits at the top level of
`safe_globals`, where imports never look). -/
def importFaultMessage : String := "__import__ not found"

/-- Execute one statement under the module scope's `global`-declared
names `gd`: the resulting state and an optional fault message
(`str(e)` of the raised exception).

An assignment to a `global`-declared name writes into the shared
globals dict passed to `exec` (the `self.safe_globals` of the
environment singleton); other assignments bind the call-local
namespace. Every `import` faults (see `importFaultMessage`), every
`print` faults (see `printFaultMessage`), and subscript/attribute
assignment is compiled through the `_write_` guard, which
`safe_globals` deliberately does not provide (line 85), so it raises
a `NameError` before any mutation happens. -/
def runStmt (w : World) (gd : List String) (st : ExecSt) :
    Stmt → ExecSt × Option String
  | Stmt.importStmt _ => (st, some importFaultMessage)
  | Stmt.importFrom _ _ => (st, some importFaultMessage)
  | Stmt.globalStmt _ => (st, Option.none)
  | Stmt.assign x e =>
      match evalExpr w st.globals st.locals e with
      | Except.ok v =>
          if gd.contains x then
            ({ st with globals := setKey st.globals x v }, Option.none)
          else
            ({ st with locals := setKey st.locals x v }, Option.none)
      | Except.error f => (st, some f)
  | Stmt.exprStmt e =>
      match evalExpr w st.globals st.locals e with
      | Except.ok _ => (st, Option.none)
      | Except.error f => (st, some f)
  | Stmt.printStmt _ => (st, some printFaultMessage)
  | Stmt.raiseStmt msg => (st, some msg)
  | Stmt.setItem _ _ _ => (st, some "name \x27_write_\x27 is not defined")
  | Stmt.setAttr _ _ _ => (st, some "name \x27_write_\x27 is not defined")

/-- Execute a statement sequence under the given `global`-declared
names, stopping at the first fault. -/
def runStmtsWithDecls (w : World) (gd : List String) :
    List Stmt → ExecSt → ExecSt × Option String
  | [], st => (st, Option.none)
  | s :: tl, st =>
      match runStmt w gd st s with
      | (st', Option.none) => runStmtsWithDecls w gd tl st'
      | (st', some f) => (st', some f)

/-- Execute a compiled module body: the `global`-declared names are a
compile-time property of the whole scope, collected before execution
starts. -/
def runStmts (w : World) (l : List Stmt) (st : ExecSt) :
    ExecSt × Option String :=
  runStmtsWithDecls w (globalDecls l) l st

/-! ## Static validator (`CodeExecutionEnvironment.validate_code`) -/

/-- The deny-listed module names of `validate_code` line 179. -/
def dangerousModules : List String :=
  ["os", "sys", "subprocess", "shutil", "socket", "urllib.request"]

/-- The deny-listed callable names of `validate_code` line 184. -/
def dangerousCallNames : List String := ["eval", "exec", "compile"]

mutual
/-- Violations contributed by the call nodes inside an expression
(`ast.walk` visits every node; only calls of a plain name drawn from
the deny list are flagged). -/
def exprViolations : Expr → List String
  | Expr.lit _ => []
  | Expr.var _ => []
  | Expr.subscript e idx => exprViolations e ++ exprViolations idx
  | Expr.binAdd a b => exprViolations a ++ exprViolations b
  | Expr.dictE entries => entryViolations entries
  | Expr.call f args =>
      (if dangerousCallNames.contains f then
        ["Dangerous function call: " ++ f]
      else []) ++ argViolations args

def argViolations : ExprList → List String
  | ExprList.nil => []
  | ExprList.cons e tl => exprViolations e ++ argViolations tl

def entryViolations : EntryList → List String
  | EntryList.nil => []
  | EntryList.cons _ e tl => exprViolations e ++ entryViolations tl
end

/-- Violations contributed by one statement. For both `Import` and
`ImportFrom` nodes only the alias names in `node.names` are compared
against the deny list — the `module` of an `ImportFrom` is never
inspected, mirroring lines 175-180 of the source. The call inside
`raise ValueError(...)` is to `ValueError`, which is not on the
deny list. -/
def stmtViolations : Stmt → List String
  | Stmt.importStmt names =>
      names.filterMap (fun n =>
        if dangerousModules.contains n then
          some ("Dangerous import: " ++ n)
        else Option.none)
  | Stmt.importFrom _ names =>
      names.filterMap (fun n =>
        if dangerousModules.contains n then
          some ("Dangerous import: " ++ n)
        else Option.none)
  | Stmt.globalStmt _ => []
  | Stmt.assign _ e => exprViolations e
  | Stmt.exprStmt e => exprViolations e
  | Stmt.printStmt e => exprViolations e
  | Stmt.raiseStmt _ => []
  | Stmt.setItem t idx e =>
      exprViolations t ++ exprViolations idx ++ exprViolations e
  | Stmt.setAttr t _ e => exprViolations t ++ exprViolations e

/-- The verdict of `validate_code`. -/
structure ValidationResult where
  valid : Bool
  errors : List String
deriving DecidableEq

/-- Model of `CodeExecutionEnvironment.validate_code` on a parsed program:
collect the dangerous nodes of the whole tree; any violation makes
the verdict invalid with the complete list attached. -/
def validateCode (code : Program) : ValidationResult :=
  let dangerous_nodes := (code.map stmtViolations).flatten
  if dangerous_nodes = [] then
    { valid := true, errors := [] }
  else
    { valid := false, errors := dangerous_nodes }

/-! ## RestrictedPython compilation front end -/

/-- RestrictedPython rejects identifiers that start with an
underscore. -/
def invalidRestrictedName (n : String) : Bool :=
  match n.data with
  | [] => false
  | c :: _ => c == '_'

mutual
def exprCompileErrors : Expr → List String
  | Expr.lit _ => []
  | Expr.var x =>
      if invalidRestrictedName x then
        ["\x27" ++ x ++ "\x27 is an invalid variable name because it starts with \x27_\x27"]
      else []
  | Expr.subscript e idx => exprCompileErrors e ++ exprCompileErrors idx
  | Expr.binAdd a b => exprCompileErrors a ++ exprCompileErrors b
  | Expr.dictE entries => entryCompileErrors entries
  | Expr.call f args =>
      (if invalidRestrictedName f then
        ["\x27" ++ f ++ "\x27 is an invalid variable name because it starts with \x27_\x27"]
      else []) ++ argCompileErrors args

def argCompileErrors : ExprList → List String
  | ExprList.nil => []
  | ExprList.cons e tl => exprCompileErrors e ++ argCompileErrors tl

def entryCompileErrors : EntryList → List String
  | EntryList.nil => []
  | EntryList.cons _ e tl => exprCompileErrors e ++ entryCompileErrors tl
end

def stmtCompileErrors : Stmt → List String
  | Stmt.importStmt names =>
      (names.filter invalidRestrictedName).map (fun n =>
        "\x27" ++ n ++ "\x27 is an invalid variable name because it starts with \x27_\x27")
  | Stmt.importFrom _ names =>
      (names.filter invalidRestrictedName).map (fun n =>
        "\x27" ++ n ++ "\x27 is an invalid variable name because it starts with \x27_\x27")
  -- `global` statements pass through `visit_Global`; the declared
  -- identifiers are raw names, not `Name` nodes, so none are checked
  | Stmt.globalStmt _ => []
  | Stmt.assign x e =>
      (if invalidRestrictedName x then
        ["\x27" ++ x ++ "\x27 is an invalid variable name because it starts with \x27_\x27"]
      else []) ++ exprCompileErrors e
  | Stmt.exprStmt e => exprCompileErrors e
  | Stmt.printStmt e => exprCompileErrors e
  | Stmt.raiseStmt _ => []
  | Stmt.setItem t idx e =>
      exprCompileErrors t ++ exprCompileErrors idx ++ exprCompileErrors e
  | Stmt.setAttr t _ e => exprCompileErrors t ++ exprCompileErrors e

/-- The restricted-grammar error log of a program. -/
def compileErrorsOf (code : Program) : List String :=
  (code.map stmtCompileErrors).flatten

/-- Model of `compile_restricted_exec` on a parsed program: returns the
compiled form (the program itself in this shallow embedding) and the
error log; on errors the byte code is `None`. -/
def compileRestrictedExec (code : Program) :
    Option Program × List String :=
  let errs := compileErrorsOf code
  if errs = [] then (some code, []) else (Option.none, errs)

/-! ## Execution session (`CodeExecutionEnvironment.execute_code`) -/

abbrev Envelope := List (String × Value)

/-- Lookup of a field of the result envelope dict. -/
def envGet (e : Envelope) (k : String) : Option Value := lookupStr e k

/-- The result dict as initialised at lines 114-119. -/
def initialEnvelope : Envelope :=
  [("success", Value.bool true), ("output", Value.str ""),
   ("result", Value.none), ("error", Value.none)]

/-- Model of `CodeExecutionEnvironment.execute_code`: redirect the
process-wide output channels to the capture buffers, compile under
the restricted grammar, execute against `(safe_globals, local_vars)`
with a fresh empty local namespace, extract the reserved `result`
variable, convert any fault into the envelope while preserving the
captured output, and — on every exit path, via the `finally` block —
restore the original channels. Returns the envelope, the globals
dict after execution, and the restored stream state. -/
def executeCode (code : Program) (g : Globals) (w : World)
    (sys : SysState) : Envelope × Globals × SysState :=
  let old_stdout := sys.stdout
  let old_stderr := sys.stderr
  let restored : SysState := { stdout := old_stdout, stderr := old_stderr }
  match compileRestrictedExec code with
  | (_, e :: rest) =>
      (setKey (setKey initialEnvelope "success" (Value.bool false)) "error"
        (Value.str ("Compilation errors: " ++ pyReprOfStringList (e :: rest))),
       g, restored)
  | (Option.none, []) =>
      (setKey (setKey initialEnvelope "success" (Value.bool false)) "error"
        (Value.str "Compilation failed: returned None"),
       g, restored)
  | (some byte_code, []) =>
      let st0 : ExecSt := { globals := g, locals := [], output := "" }
      match runStmts w byte_code st0 with
      | (st1, Option.none) =>
          (setKey (setKey initialEnvelope "output" (Value.str st1.output))
            "result" ((lookupStr st1.locals "result").getD Value.none),
           st1.globals, restored)
      | (st1, some f) =>
          (setKey (setKey (setKey initialEnvelope "success" (Value.bool false))
            "error" (Value.str f)) "output" (Value.str st1.output),
           st1.globals, restored)

/-- The two-field envelope returned by `execute_agent_code` when
validation fails (lines 213-216): note it carries only `success` and
`error`. -/
def validationFailureEnvelope (errors : List String) : Envelope :=
  [("success", Value.bool false),
   ("error",
    Value.str ("Code validation failed: " ++ pyReprOfStringList errors))]

/-- Model of `execute_agent_code`: validate first; on a violation return the
validation-failure envelope without compiling or executing anything;
otherwise run `execute_code`. -/
def executeAgentCode (code : Program) (g : Globals) (w : World)
    (sys : SysState) : Envelope × Globals × SysState :=
  let validation_result := validateCode code
  if validation_result.valid = false then
    (validationFailureEnvelope validation_result.errors, g, sys)
  else
    executeCode code g w sys

/-! ## Spec-described print semantics -/

/-- Modelled from the spec: the specification's testable property
"three printed lines before a fault produce those three lines in
`output`" reads `print` as writing `str(arg)` and a newline into the
captured stdout buffer. This variant interpreter differs from
`runStmt` only in the `print` case and exists solely to state that
reading and compare it with the code's behaviour, where every
executed `print` in fact raises an `AttributeError` from the
print-collector protocol before writing anything. -/
def runStmtSpecPrint (w : World) (gd : List String) (st : ExecSt) :
    Stmt → ExecSt × Option String
  | Stmt.printStmt e =>
      match evalExpr w st.globals st.locals e with
      | Except.ok v =>
          ({ st with output := st.output ++ pyStr v ++ "\n" }, Option.none)
      | Except.error f => (st, some f)
  | s => runStmt w gd st s

/-- Modelled from the spec: sequencing for `runStmtSpecPrint`. -/
def runStmtsSpecPrintWithDecls (w : World) (gd : List String) :
    List Stmt → ExecSt → ExecSt × Option String
  | [], st => (st, Option.none)
  | s :: tl, st =>
      match runStmtSpecPrint w gd st s with
      | (st', Option.none) => runStmtsSpecPrintWithDecls w gd tl st'
      | (st', some f) => (st', some f)

/-- Modelled from the spec: the spec-side execution of a module
body. -/
def runStmtsSpecPrint (w : World) (l : List Stmt) (st : ExecSt) :
    ExecSt × Option String :=
  runStmtsSpecPrintWithDecls w (globalDecls l) l st

/-! ## String front end

`execute_agent_code` receives source text; `ast.parse` (in
`validate_code`) and `compile_restricted_exec` (in `execute_code`)
parse it. The parser below covers a straight-line fragment of the
grammar — imports, `global` declarations, `print`,
`raise ValueError`, assignments and atomic expressions — which suffices for the textual skill pipeline
of `agent.py`; source outside the fragment is a parse failure. -/

def isIdentChar (c : Char) : Bool := c.isAlphanum || c = '_'

def isIdentText (s : String) : Bool :=
  s.length > 0 && s.toList.all isIdentChar && (s.take 1).toList.all (fun c => c.isDigit = false)

/-- Parse an atomic expression: a double-quoted string literal (no
escapes), an integer literal, or a name. -/
def parseAtom (t : String) : Except String Expr :=
  let s := t.trim
  if s.length ≥ 2 && s.startsWith ("\x22") && s.endsWith ("\x22") then
    Except.ok (Expr.lit (Value.str ((s.drop 1).dropRight 1)))
  else
    match s.toInt? with
    | some n => Except.ok (Expr.lit (Value.int n))
    | Option.none =>
        if isIdentText s then Except.ok (Expr.var s)
        else Except.error ("invalid syntax: " ++ s)

def parseAtomList (ts : List String) : Except String ExprList :=
  match ts with
  | [] => Except.ok ExprList.nil
  | t :: tl => do
      let e ← parseAtom t
      let es ← parseAtomList tl
      Except.ok (ExprList.cons e es)

/-- Parse one expression: an atom, or a call of a plain name with
atomic comma-separated arguments. -/
def parseExprText (t : String) : Except String Expr :=
  let s := t.trim
  if s.endsWith (")") && s.contains '(' then
    match s.splitOn "(" with
    | [fname, rest] =>
        if isIdentText fname.trim then
          let argsTxt := rest.dropRight 1
          if argsTxt.trim = "" then
            Except.ok (Expr.call fname.trim ExprList.nil)
          else do
            let args ← parseAtomList (argsTxt.splitOn ",")
            Except.ok (Expr.call fname.trim args)
        else Except.error ("invalid syntax: " ++ s)
    | _ => Except.error ("invalid syntax: " ++ s)
  else parseAtom s

/-- Parse one source line into at most one statement (blank lines
and comment lines contribute nothing). -/
def parseStmtLine (l : String) : Except String (Option Stmt) :=
  let s := l.trim
  if s = "" then Except.ok Option.none
  else if s.startsWith ("#") then Except.ok Option.none
  else if s.startsWith ("import ") then
    Except.ok (some (Stmt.importStmt ((s.drop 7).splitOn ", " |>.map String.trim)))
  else if s.startsWith ("from ") then
    match (s.drop 5).splitOn " import " with
    | [m, names] =>
        Except.ok (some (Stmt.importFrom m.trim
          (names.splitOn ", " |>.map String.trim)))
    | _ => Except.error ("invalid syntax: " ++ s)
  else if s.startsWith ("global ") then
    Except.ok (some (Stmt.globalStmt
      ((s.drop 7).splitOn ", " |>.map String.trim)))
  else if s.startsWith ("print(") && s.endsWith (")") then do
    let e ← parseExprText ((s.drop 6).dropRight 1)
    Except.ok (some (Stmt.printStmt e))
  else if s.startsWith ("raise ValueError(\x22") && s.endsWith ("\x22)") then
    Except.ok (some (Stmt.raiseStmt ((s.drop 18).dropRight 2)))
  else
    match s.splitOn " = " with
    | [lhs, rhs] =>
        if isIdentText lhs.trim then do
          let e ← parseExprText rhs
          Except.ok (some (Stmt.assign lhs.trim e))
        else Except.error ("invalid assignment target: " ++ s)
    | [single] => do
        let e ← parseExprText single
        Except.ok (some (Stmt.exprStmt e))
    | _ => Except.error ("invalid syntax: " ++ s)

def parseLines : List String → Except String Program
  | [] => Except.ok []
  | l :: tl => do
      let s ← parseStmtLine l
      let rest ← parseLines tl
      match s with
      | Option.none => Except.ok rest
      | some st => Except.ok (st :: rest)

/-- Model of `ast.parse` on the modelled source fragment. -/
def parseProgram (src : String) : Except String Program :=
  parseLines (src.splitOn "\n")

/-- Model of `validate_code` on source text: a parse failure is the
`SyntaxError` branch of lines 197-201. -/
def validateCodeStr (src : String) : ValidationResult :=
  match parseProgram src with
  | Except.ok p => validateCode p
  | Except.error e => { valid := false, errors := ["Syntax error: " ++ e] }

/-- Model of `execute_code` on source text: `compile_restricted_exec` reports
a parse failure in its error log. -/
def executeCodeStr (src : String) (g : Globals) (w : World)
    (sys : SysState) : Envelope × Globals × SysState :=
  match parseProgram src with
  | Except.ok p => executeCode p g w sys
  | Except.error e =>
      (setKey (setKey initialEnvelope "success" (Value.bool false)) "error"
        (Value.str ("Compilation errors: " ++ pyReprOfStringList [e])),
       g, { stdout := sys.stdout, stderr := sys.stderr })

/-- Model of `execute_agent_code` on source text. -/
def executeAgentCodeStr (src : String) (g : Globals) (w : World)
    (sys : SysState) : Envelope × Globals × SysState :=
  let validation_result := validateCodeStr src
  if validation_result.valid = false then
    (validationFailureEnvelope validation_result.errors, g, sys)
  else
    executeCodeStr src g w sys

/-! ## Skill store (`agent.py`) -/

/-- The agent's skill store: skill name to source template. -/
structure Agent where
  skills : List (String × String)

/-- Model of `Agent.save_skill`: store (or overwrite) the snippet under the
name. -/
def Agent.save_skill (a : Agent) (skill_name : String) (code : String) : Agent :=
  { skills := setKey a.skills skill_name code }

/-- The placeholder substitution loop of `Agent.execute_skill`:
each argument key replaces every occurrence of its
`\x7b\x7b`key`\x7d\x7d` marker with the string form of its value. -/
def substituteArgs (code : String) (kwargs : List (String × Value)) : String :=
  kwargs.foldl
    (fun c kv => c.replace ("\x7b\x7b" ++ kv.fst ++ "\x7d\x7d") (pyStr kv.snd))
    code

/-- Model of `Agent.execute_skill`: unknown skill yields a not-found error
envelope; otherwise substitute the arguments into the template and
feed the text through `execute_agent_code`. -/
def Agent.execute_skill (a : Agent) (skill_name : String)
    (kwargs : List (String × Value)) (g : Globals) (w : World)
    (sys : SysState) : Envelope × Globals × SysState :=
  match lookupStr a.skills skill_name with
  | Option.none =>
      ([("success", Value.bool false),
        ("error", Value.str ("Skill \x27" ++ skill_name ++ "\x27 not found"))],
       g, sys)
  | some code => executeAgentCodeStr (substituteArgs code kwargs) g w sys

/-! ## Helper lemmas -/

/-- Names a statement can bind in the local namespace: assignment
targets (a conservative over-approximation — an assignment to a
`global`-declared name writes the globals dict instead). Imports
fault before binding anything, and `global` declarations bind
nothing locally. -/
def stmtBinds : Stmt → List String
  | Stmt.assign x _ => [x]
  | _ => []

/-- All names a program can bind in the local namespace. -/
def progBinds (p : Program) : List String := (p.map stmtBinds).flatten

/-- Whether some import node of the program carries an alias whose
name is exactly `m`. -/
def stmtImportsName (m : String) : Stmt → Bool
  | Stmt.importStmt names => names.contains m
  | Stmt.importFrom _ names => names.contains m
  | _ => false

def importsName (p : Program) (m : String) : Bool := p.any (stmtImportsName m)

/-- A host stream state used to instantiate concrete executions. -/
def hostSys : SysState := { stdout := Chan.hostChan 0, stderr := Chan.hostChan 1 }

/-- A concrete external-service state. -/
def world0 : World := { now := 0 }

/-- A program that prints three lines of text and then raises a
fault. -/
def printThenRaiseProgram : Program :=
  [Stmt.printStmt (Expr.lit (Value.str "line1")),
   Stmt.printStmt (Expr.lit (Value.str "line2")),
   Stmt.printStmt (Expr.lit (Value.str "line3")),
   Stmt.raiseStmt "boom"]

/-- A program that calls `get_document` with the given identifier and
stores the returned value in the reserved variable `result`. -/
def getDocumentProgram (did : String) : Program :=
  [Stmt.assign "result"
    (Expr.call "get_document"
      (ExprList.cons (Expr.lit (Value.str did)) ExprList.nil))]

/-- The capability-level error dict of the mock document store. -/
def documentNotFoundDict : Value :=
  Value.dict (VDict.cons "error" (Value.str "Document not found") VDict.nil)

/-- The document dict returned by the mock store for `abc123`. -/
def knownDocumentDict : Value :=
  Value.dict (VDict.cons "id" (Value.str "abc123")
    (VDict.cons "title" (Value.str "Q4目标会议纪要")
      (VDict.cons "content"
        (Value.str "讨论了Q4目标...\n完整纪要文本，包含大量详细内容和数据...")
        VDict.nil)))

/-- The source `global leak` / `leak = 42`: it passes validation (no
import, no denied call) and restricted compilation (RestrictedPython
allows `global`), and its assignment writes into the shared globals
dict of the environment singleton. -/
def globalLeakProgram : Program :=
  [Stmt.globalStmt ["leak"],
   Stmt.assign "leak" (Expr.lit (Value.int 42))]

/-- The source `result = leak`: reads the name a previous execution
may have leaked into the shared globals. -/
def readLeakProgram : Program :=
  [Stmt.assign "result" (Expr.var "leak")]

theorem lookupStr_setKey_self {α : Type} (l : List (String × α))
    (key : String) (v : α) : lookupStr (setKey l key v) key = some v := by
  induction l with
  | nil => simp [setKey, lookupStr]
  | cons hd tl ih =>
      rcases hd with ⟨k, u⟩
      by_cases hk : k = key
      · simp [setKey, hk, lookupStr]
      · simp [setKey, hk, lookupStr, ih]

theorem lookupStr_setKey_ne {α : Type} (l : List (String × α))
    (key x : String) (v : α) (h : x ≠ key) :
    lookupStr (setKey l key v) x = lookupStr l x := by
  induction l with
  | nil => simp [setKey, lookupStr, Ne.symm h]
  | cons hd tl ih =>
      rcases hd with ⟨k, u⟩
      by_cases hk : k = key
      · subst hk
        simp [setKey, lookupStr, Ne.symm h]
      · simp only [setKey, if_neg hk, lookupStr]
        by_cases hx : k = x
        · simp [hx]
        · simp [hx, ih]

theorem runStmt_globals_eq (w : World) (st : ExecSt) (s : Stmt) :
    (runStmt w [] st s).1.globals = st.globals := by
  cases s <;> simp only [runStmt] <;> (repeat' split) <;>
    first | rfl | simp_all [List.contains]

theorem runStmtsWithDecls_globals_eq_nil (w : World) :
    ∀ (l : List Stmt) (st : ExecSt),
      (runStmtsWithDecls w [] l st).1.globals = st.globals := by
  intro l
  induction l with
  | nil => intro st; rfl
  | cons s tl ih =>
      intro st
      simp only [runStmtsWithDecls]
      rcases h : runStmt w [] st s with ⟨st', f⟩
      have hg : st'.globals = st.globals := by
        have hs := runStmt_globals_eq w st s
        rw [h] at hs
        exact hs
      cases f with
      | none => simpa using (ih st').trans hg
      | some msg => simpa using hg

/-- A program with no `global` declarations leaves the globals dict
untouched. -/
theorem runStmts_globals_eq (w : World) (l : List Stmt) (st : ExecSt)
    (hl : globalDecls l = []) :
    (runStmts w l st).1.globals = st.globals := by
  simp only [runStmts, hl]
  exact runStmtsWithDecls_globals_eq_nil w l st

theorem runStmt_output_eq (w : World) (gd : List String) (st : ExecSt)
    (s : Stmt) : (runStmt w gd st s).1.output = st.output := by
  cases s <;> simp only [runStmt] <;> (repeat' split) <;> rfl

theorem runStmtsWithDecls_output_eq (w : World) (gd : List String) :
    ∀ (l : List Stmt) (st : ExecSt),
      (runStmtsWithDecls w gd l st).1.output = st.output := by
  intro l
  induction l with
  | nil => intro st; rfl
  | cons s tl ih =>
      intro st
      simp only [runStmtsWithDecls]
      rcases h : runStmt w gd st s with ⟨st', f⟩
      have hg : st'.output = st.output := by
        have hs := runStmt_output_eq w gd st s
        rw [h] at hs
        exact hs
      cases f with
      | none => simpa using (ih st').trans hg
      | some msg => simpa using hg

theorem runStmts_output_eq (w : World) (l : List Stmt) (st : ExecSt) :
    (runStmts w l st).1.output = st.output :=
  runStmtsWithDecls_output_eq w (globalDecls l) l st

theorem runStmt_lookup_not_bound (w : World) (gd : List String)
    (st : ExecSt) (s : Stmt) (x : String) (hx : x ∉ stmtBinds s) :
    lookupStr (runStmt w gd st s).1.locals x = lookupStr st.locals x := by
  cases s with
  | importStmt names => rfl
  | importFrom m names => rfl
  | globalStmt names => rfl
  | assign y e =>
      simp only [stmtBinds, List.mem_singleton] at hx
      simp only [runStmt]
      cases evalExpr w st.globals st.locals e with
      | ok v =>
          by_cases hg : gd.contains y = true
          · simp only [if_pos hg]
          · simp only [if_neg hg]
            exact lookupStr_setKey_ne st.locals y x v hx
      | error f => rfl
  | exprStmt e =>
      simp only [runStmt]
      cases evalExpr w st.globals st.locals e <;> rfl
  | printStmt e => rfl
  | raiseStmt msg => rfl
  | setItem t idx e => rfl
  | setAttr t a e => rfl

theorem runStmtsWithDecls_lookup_not_bound (w : World) (gd : List String) :
    ∀ (l : List Stmt) (st : ExecSt) (x : String), x ∉ progBinds l →
      lookupStr (runStmtsWithDecls w gd l st).1.locals x =
        lookupStr st.locals x := by
  intro l
  induction l with
  | nil => intro st x _; rfl
  | cons s tl ih =>
      intro st x hx
      have hx' : x ∉ stmtBinds s ∧ x ∉ progBinds tl := by
        constructor
        · intro hmem
          exact hx (by simp [progBinds, List.mem_flatten]; exact Or.inl hmem)
        · intro hmem
          refine hx ?_
          simp only [progBinds, List.map_cons, List.flatten_cons, List.mem_append]
          exact Or.inr (by simpa [progBinds] using hmem)
      simp only [runStmtsWithDecls]
      rcases h : runStmt w gd st s with ⟨st', f⟩
      have hone : lookupStr st'.locals x = lookupStr st.locals x := by
        have hs := runStmt_lookup_not_bound w gd st s x hx'.1
        rw [h] at hs
        exact hs
      cases f with
      | none => simpa using (ih st' x hx'.2).trans hone
      | some msg => simpa using hone

theorem runStmts_lookup_not_bound (w : World) (l : List Stmt) (st : ExecSt)
    (x : String) (hx : x ∉ progBinds l) :
    lookupStr (runStmts w l st).1.locals x = lookupStr st.locals x :=
  runStmtsWithDecls_lookup_not_bound w (globalDecls l) l st x hx

theorem mem_stmtViolations_of_imports (s : Stmt) (m : String)
    (hm : m ∈ dangerousModules) (hs : stmtImportsName m s = true) :
    ("Dangerous import: " ++ m) ∈ stmtViolations s := by
  cases s with
  | importStmt names =>
      simp only [stmtImportsName] at hs
      have hmem : m ∈ names := by simpa using hs
      simp only [stmtViolations, List.mem_filterMap]
      refine ⟨m, hmem, ?_⟩
      rw [if_pos (by simpa using hm)]
  | importFrom mn names =>
      simp only [stmtImportsName] at hs
      have hmem : m ∈ names := by simpa using hs
      simp only [stmtViolations, List.mem_filterMap]
      refine ⟨m, hmem, ?_⟩
      rw [if_pos (by simpa using hm)]
  | globalStmt names => simp [stmtImportsName] at hs
  | assign x e => simp [stmtImportsName] at hs
  | exprStmt e => simp [stmtImportsName] at hs
  | printStmt e => simp [stmtImportsName] at hs
  | raiseStmt msg => simp [stmtImportsName] at hs
  | setItem t idx e => simp [stmtImportsName] at hs
  | setAttr t a e => simp [stmtImportsName] at hs

theorem mem_validateCode_errors (p : Program) (m : String)
    (hm : m ∈ dangerousModules) (hp : importsName p m = true) :
    ("Dangerous import: " ++ m) ∈ ((p.map stmtViolations).flatten) := by
  have : ∃ s ∈ p, stmtImportsName m s = true := by
    simpa [importsName, List.any_eq_true] using hp
  rcases this with ⟨s, hsp, hs⟩
  rw [List.mem_flatten]
  exact ⟨stmtViolations s, List.mem_map_of_mem stmtViolations hsp,
    mem_stmtViolations_of_imports s m hm hs⟩

theorem validateCode_invalid_of_imports (p : Program) (m : String)
    (hm : m ∈ dangerousModules) (hp : importsName p m = true) :
    (validateCode p).valid = false ∧
      ("Dangerous import: " ++ m) ∈ (validateCode p).errors := by
  have hmem := mem_validateCode_errors p m hm hp
  have hne : (p.map stmtViolations).flatten ≠ [] := List.ne_nil_of_mem hmem
  have hv : validateCode p =
      { valid := false, errors := (p.map stmtViolations).flatten } := by
    simp only [validateCode, if_neg hne]
  rw [hv]
  exact ⟨rfl, hmem⟩

/-- Executing a program with no `global` declarations returns the
globals dict unchanged on every path. -/
theorem executeCode_globals_eq (p : Program) (g : Globals) (w : World)
    (sys : SysState) (hp : globalDecls p = []) :
    (executeCode p g w sys).2.1 = g := by
  simp only [executeCode]
  split
  · rfl
  · rfl
  · rename_i byte_code heq
    have hbc : byte_code = p := by
      simp only [compileRestrictedExec] at heq
      by_cases hce : compileErrorsOf p = []
      · rw [if_pos hce] at heq
        injection heq with h1 h2
        injection h1 with h1'
        exact h1'.symm
      · rw [if_neg hce] at heq
        injection heq with h1 h2
        simp at h1
    subst hbc
    split
    · rename_i st1 hr
      have hge := runStmts_globals_eq w byte_code
        { globals := g, locals := [], output := "" } hp
      rw [hr] at hge
      exact hge
    · rename_i st1 f hr
      have hge := runStmts_globals_eq w byte_code
        { globals := g, locals := [], output := "" } hp
      rw [hr] at hge
      exact hge

theorem executeAgentCode_globals_eq (p : Program) (g : Globals) (w : World)
    (sys : SysState) (hp : globalDecls p = []) :
    (executeAgentCode p g w sys).2.1 = g := by
  simp only [executeAgentCode]
  by_cases hv : (validateCode p).valid = false
  · rw [if_pos hv]
  · rw [if_neg hv]
    exact executeCode_globals_eq p g w sys hp

/-- Every envelope `execute_code` assembles carries the four fields of
lines 114-119. -/
theorem executeCode_envelope_fields (p : Program) (g : Globals) (w : World)
    (sys : SysState) :
    (envGet (executeCode p g w sys).1 "success").isSome = true ∧
    (envGet (executeCode p g w sys).1 "output").isSome = true ∧
    (envGet (executeCode p g w sys).1 "result").isSome = true ∧
    (envGet (executeCode p g w sys).1 "error").isSome = true := by
  simp only [executeCode]
  split
  · refine ⟨?_, ?_, ?_, ?_⟩ <;> simp [envGet, lookupStr, setKey, initialEnvelope]
  · refine ⟨?_, ?_, ?_, ?_⟩ <;> simp [envGet, lookupStr, setKey, initialEnvelope]
  · split <;>
      (refine ⟨?_, ?_, ?_, ?_⟩ <;> simp [envGet, lookupStr, setKey, initialEnvelope])

/-- The envelope of an execution that compiles and completes without
a fault, as assembled at lines 150-151. -/
theorem executeCode_ok_envelope (p : Program) (g : Globals) (w : World)
    (sys : SysState) (st1 : ExecSt)
    (hcomp : compileErrorsOf p = [])
    (hr : runStmts w p { globals := g, locals := [], output := "" } =
      (st1, Option.none)) :
    (executeCode p g w sys).1 =
      setKey (setKey initialEnvelope "output" (Value.str st1.output)) "result"
        ((lookupStr st1.locals "result").getD Value.none) := by
  have hc : compileRestrictedExec p = (some p, []) := by
    simp [compileRestrictedExec, hcomp]
  simp only [executeCode]
  split
  · rename_i heq
    rw [hc] at heq
    simp at heq
  · rename_i heq
    rw [hc] at heq
    simp at heq
  · rename_i byte_code heq
    rw [hc] at heq
    injection heq with h1 h2
    injection h1 with h1'
    subst h1'
    split
    · rename_i st hr2
      rw [hr] at hr2
      injection hr2 with hs hf
      subst hs
      rfl
    · rename_i st f hr2
      rw [hr] at hr2
      injection hr2 with hs hf
      simp at hf

/-- The envelope of an execution that compiles and raises a fault,
as assembled at lines 153-156: the captured buffer contents are
preserved in the `output` field. -/
theorem executeCode_fault_envelope (p : Program) (g : Globals) (w : World)
    (sys : SysState) (st1 : ExecSt) (msg : String)
    (hcomp : compileErrorsOf p = [])
    (hr : runStmts w p { globals := g, locals := [], output := "" } =
      (st1, some msg)) :
    (executeCode p g w sys).1 =
      setKey (setKey (setKey initialEnvelope "success" (Value.bool false))
        "error" (Value.str msg)) "output" (Value.str st1.output) := by
  have hc : compileRestrictedExec p = (some p, []) := by
    simp [compileRestrictedExec, hcomp]
  simp only [executeCode]
  split
  · rename_i heq
    rw [hc] at heq
    simp at heq
  · rename_i heq
    rw [hc] at heq
    simp at heq
  · rename_i byte_code heq
    rw [hc] at heq
    injection heq with h1 h2
    injection h1 with h1'
    subst h1'
    split
    · rename_i st hr2
      rw [hr] at hr2
      injection hr2 with hs hf
      simp at hf
    · rename_i st f hr2
      rw [hr] at hr2
      injection hr2 with hs hf
      injection hf with hf'
      subst hs
      subst hf'
      rfl

/-! ## The claims -/

/-- C1: for every source program containing an import whose alias
name is on the deny-list, `validate_code` returns `valid=false` with
that module named in the errors list, and `execute_agent_code`
returns the validation-failure envelope computed from the verdict
alone — the restricted interpreter never compiles or runs the
program. -/
theorem c1_denied_import_blocks_execution (p : Program) (m : String)
    (g : Globals) (w : World) (sys : SysState)
    (hm : m ∈ dangerousModules) (hp : importsName p m = true) :
    (validateCode p).valid = false ∧
    ("Dangerous import: " ++ m) ∈ (validateCode p).errors ∧
    executeAgentCode p g w sys =
      (validationFailureEnvelope (validateCode p).errors, g, sys) := by
  obtain ⟨hv, hmem⟩ := validateCode_invalid_of_imports p m hm hp
  refine ⟨hv, hmem, ?_⟩
  simp [executeAgentCode, hv]

/-- Witness for C1 at the concrete source `import os`. -/
theorem c1_denied_import_blocks_execution_witness :
    ("os" ∈ dangerousModules ∧
      importsName [Stmt.importStmt ["os"]] "os" = true) ∧
    ((validateCode [Stmt.importStmt ["os"]]).valid = false ∧
     ("Dangerous import: " ++ "os") ∈ (validateCode [Stmt.importStmt ["os"]]).errors ∧
     executeAgentCode [Stmt.importStmt ["os"]] safeGlobals world0 hostSys =
       (validationFailureEnvelope (validateCode [Stmt.importStmt ["os"]]).errors,
        safeGlobals, hostSys)) :=
  ⟨⟨by decide, by decide⟩,
   c1_denied_import_blocks_execution [Stmt.importStmt ["os"]] "os" safeGlobals
     world0 hostSys (by decide) (by decide)⟩

/-- C2 counterexample: a program that issues three prints and then
raises `ValueError("boom")`. Under the spec's reading of `print`
(modelled by `runStmtsSpecPrint`) the three lines `line1`, `line2`,
`line3` are printed before the `boom` fault. The code instead faults
at the *first* print: RestrictedPython compiles `print(...)` to
`_print._call_print(...)` with `_print = _print_(_getattr_)`, which
under the repository's identity `_print_` hook is the `getattr`
builtin, so the program raises an `AttributeError` and never reaches
its own `raise`. The envelope therefore carries the AttributeError
message — not `boom` — and an empty `output` field, not the three
lines the claim requires. -/
theorem c2_printed_lines_absent_counterexample :
    (runStmtsSpecPrint world0 printThenRaiseProgram
      { globals := safeGlobals, locals := [], output := "" }).1.output =
        "line1\nline2\nline3\n" ∧
    (runStmtsSpecPrint world0 printThenRaiseProgram
      { globals := safeGlobals, locals := [], output := "" }).2 = some "boom" ∧
    envGet (executeCode printThenRaiseProgram safeGlobals world0 hostSys).1
      "success" = some (Value.bool false) ∧
    envGet (executeCode printThenRaiseProgram safeGlobals world0 hostSys).1
      "error" = some (Value.str printFaultMessage) ∧
    printFaultMessage ≠ "boom" ∧
    envGet (executeCode printThenRaiseProgram safeGlobals world0 hostSys).1
      "output" = some (Value.str "") ∧
    envGet (executeCode printThenRaiseProgram safeGlobals world0 hostSys).1
      "output" ≠ some (Value.str "line1\nline2\nline3\n") := by
  refine ⟨rfl, rfl, rfl, rfl, by decide, rfl, ?_⟩
  intro hc
  have h0 : envGet (executeCode printThenRaiseProgram safeGlobals world0
      hostSys).1 "output" = some (Value.str "") := rfl
  rw [h0] at hc
  injection hc with h1
  injection h1 with h2
  exact absurd h2 (by decide)

/-- C2 amended: for every program that compiles and raises a fault
mid-execution, the envelope has `success=false`, `error` equal to the
fault message, and `output` equal to the contents of the captured
stdout buffer at the time of the fault — the buffer is preserved, not
discarded, but it is always empty: every executed `print` raises an
`AttributeError` from the print-collector protocol before writing
anything, and nothing else can write to the captured stream. A
program with prints faults at its first print, so the fault carried
in `error` is the AttributeError, not a later raise. -/
theorem c2_fault_preserves_captured_buffer (p : Program) (g : Globals)
    (w : World) (sys : SysState) (st1 : ExecSt) (msg : String)
    (hcomp : compileErrorsOf p = [])
    (hrun : runStmts w p { globals := g, locals := [], output := "" } =
      (st1, some msg)) :
    envGet (executeCode p g w sys).1 "success" = some (Value.bool false) ∧
    envGet (executeCode p g w sys).1 "error" = some (Value.str msg) ∧
    envGet (executeCode p g w sys).1 "output" = some (Value.str st1.output) ∧
    st1.output = "" := by
  have henv := executeCode_fault_envelope p g w sys st1 msg hcomp hrun
  have hout : st1.output = "" := by
    have hoe := runStmts_output_eq w p { globals := g, locals := [], output := "" }
    rw [hrun] at hoe
    exact hoe
  rw [henv]
  refine ⟨?_, ?_, ?_, hout⟩ <;> simp [envGet, lookupStr, setKey, initialEnvelope]

/-- Witness for the amended C2 at the three-prints-then-raise
program: it faults at the first print with the AttributeError of the
print-collector protocol. -/
theorem c2_fault_preserves_captured_buffer_witness :
    compileErrorsOf printThenRaiseProgram = [] ∧
    runStmts world0 printThenRaiseProgram
      { globals := safeGlobals, locals := [], output := "" } =
      ({ globals := safeGlobals, locals := [], output := "" },
       some printFaultMessage) ∧
    envGet (executeCode printThenRaiseProgram safeGlobals world0 hostSys).1
      "error" = some (Value.str printFaultMessage) :=
  ⟨rfl, rfl,
   (c2_fault_preserves_captured_buffer printThenRaiseProgram safeGlobals world0
     hostSys { globals := safeGlobals, locals := [], output := "" }
     printFaultMessage rfl rfl).2.1⟩

/-- C3 counterexample: on the source `import os`, validation fails
and `execute_agent_code` returns an envelope carrying only the
`success` and `error` fields — the `output` and `result` fields of
the claimed four-field envelope are absent. -/
theorem c3_missing_fields_counterexample :
    envGet (executeAgentCode [Stmt.importStmt ["os"]] safeGlobals world0
      hostSys).1 "success" = some (Value.bool false) ∧
    (envGet (executeAgentCode [Stmt.importStmt ["os"]] safeGlobals world0
      hostSys).1 "error").isSome = true ∧
    envGet (executeAgentCode [Stmt.importStmt ["os"]] safeGlobals world0
      hostSys).1 "output" = Option.none ∧
    envGet (executeAgentCode [Stmt.importStmt ["os"]] safeGlobals world0
      hostSys).1 "result" = Option.none :=
  ⟨rfl, rfl, rfl, rfl⟩

/-- C3 amended: when validation passes, the envelope returned by
`execute_agent_code` carries all four fields `success`, `output`,
`result`, `error`; on the validation-failure path it carries only
`success` and `error`. -/
theorem c3_envelope_fields_by_path (p : Program) (g : Globals) (w : World)
    (sys : SysState) :
    ((validateCode p).valid = true →
      ((envGet (executeAgentCode p g w sys).1 "success").isSome = true ∧
       (envGet (executeAgentCode p g w sys).1 "output").isSome = true ∧
       (envGet (executeAgentCode p g w sys).1 "result").isSome = true ∧
       (envGet (executeAgentCode p g w sys).1 "error").isSome = true)) ∧
    ((validateCode p).valid = false →
      ((envGet (executeAgentCode p g w sys).1 "success").isSome = true ∧
       (envGet (executeAgentCode p g w sys).1 "error").isSome = true ∧
       envGet (executeAgentCode p g w sys).1 "output" = Option.none ∧
       envGet (executeAgentCode p g w sys).1 "result" = Option.none)) := by
  constructor
  · intro hv
    have hne : ¬ ((validateCode p).valid = false) := by simp [hv]
    have hx : executeAgentCode p g w sys = executeCode p g w sys := by
      simp [executeAgentCode, hne]
    rw [hx]
    exact executeCode_envelope_fields p g w sys
  · intro hv
    have hx : executeAgentCode p g w sys =
        (validationFailureEnvelope (validateCode p).errors, g, sys) := by
      simp [executeAgentCode, hv]
    rw [hx]
    refine ⟨?_, ?_, ?_, ?_⟩ <;>
      simp [envGet, lookupStr, validationFailureEnvelope]

/-- Witness for the amended C3: both paths, at an empty program and
at `import os`. -/
theorem c3_envelope_fields_by_path_witness :
    ((envGet (executeAgentCode [] safeGlobals world0 hostSys).1
        "success").isSome = true ∧
     (envGet (executeAgentCode [] safeGlobals world0 hostSys).1
        "output").isSome = true ∧
     (envGet (executeAgentCode [] safeGlobals world0 hostSys).1
        "result").isSome = true ∧
     (envGet (executeAgentCode [] safeGlobals world0 hostSys).1
        "error").isSome = true) ∧
    ((envGet (executeAgentCode [Stmt.importStmt ["os"]] safeGlobals world0
        hostSys).1 "success").isSome = true ∧
     (envGet (executeAgentCode [Stmt.importStmt ["os"]] safeGlobals world0
        hostSys).1 "error").isSome = true ∧
     envGet (executeAgentCode [Stmt.importStmt ["os"]] safeGlobals world0
        hostSys).1 "output" = Option.none ∧
     envGet (executeAgentCode [Stmt.importStmt ["os"]] safeGlobals world0
        hostSys).1 "result" = Option.none) :=
  ⟨(c3_envelope_fields_by_path [] safeGlobals world0 hostSys).1 (by decide),
   (c3_envelope_fields_by_path [Stmt.importStmt ["os"]] safeGlobals world0
     hostSys).2 (by decide)⟩

/-- C4 counterexample: the source `global leak` / `leak = 42` passes
validation (only imports and `eval`/`exec`/`compile` calls are
flagged) and restricted compilation (RestrictedPython's
`visit_Global` allows `global`), and its assignment writes into the
shared `self.safe_globals` dict of the environment singleton. The
source `result = leak` run alone faults with a `NameError`
(`success=false`), but run after the leaking program it succeeds with
`result = 42` — a different envelope against the same
external-service state, so state leaks between calls and the claim
is false. -/
theorem c4_global_write_leaks_counterexample :
    envGet (executeAgentCode readLeakProgram safeGlobals world0 hostSys).1
      "success" = some (Value.bool false) ∧
    (executeAgentCode globalLeakProgram safeGlobals world0 hostSys).2.1 ≠
      safeGlobals ∧
    envGet (executeAgentCode readLeakProgram
      (executeAgentCode globalLeakProgram safeGlobals world0 hostSys).2.1
      world0 hostSys).1 "success" = some (Value.bool true) ∧
    envGet (executeAgentCode readLeakProgram
      (executeAgentCode globalLeakProgram safeGlobals world0 hostSys).2.1
      world0 hostSys).1 "result" = some (Value.int 42) ∧
    (executeAgentCode readLeakProgram
      (executeAgentCode globalLeakProgram safeGlobals world0 hostSys).2.1
      world0 hostSys).1 ≠
      (executeAgentCode readLeakProgram safeGlobals world0 hostSys).1 := by
  refine ⟨rfl, ?_, rfl, rfl, ?_⟩
  · intro h
    have h1 : lookupStr (executeAgentCode globalLeakProgram safeGlobals world0
        hostSys).2.1 "leak" = some (Value.int 42) := rfl
    rw [h] at h1
    have h2 : lookupStr safeGlobals "leak" = Option.none := rfl
    rw [h1] at h2
    simp at h2
  · intro h
    have h1 : envGet (executeAgentCode readLeakProgram
        (executeAgentCode globalLeakProgram safeGlobals world0 hostSys).2.1
        world0 hostSys).1 "success" = some (Value.bool true) := rfl
    rw [h] at h1
    have h2 : envGet (executeAgentCode readLeakProgram safeGlobals world0
        hostSys).1 "success" = some (Value.bool false) := rfl
    rw [h2] at h1
    simp at h1

/-- C4 amended: execution mutates the shared globals only through
`global`-declared assignments. For every program A that contains no
`global` declaration, running A leaves the globals dict it returns
equal to the one passed in, so a subsequent run of any program B
produces exactly the envelope B would produce alone against the same
external-service state. -/
theorem c4_no_state_leak_without_global_decl (A B : Program) (g : Globals)
    (w : World) (sys1 sys2 : SysState) (hA : globalDecls A = []) :
    (executeAgentCode A g w sys1).2.1 = g ∧
    (executeAgentCode B (executeAgentCode A g w sys1).2.1 w sys2).1 =
      (executeAgentCode B g w sys2).1 := by
  refine ⟨executeAgentCode_globals_eq A g w sys1 hA, ?_⟩
  rw [executeAgentCode_globals_eq A g w sys1 hA]

/-- Witness for the amended C4 at the `global`-free program `x = 1`
followed by `result = 2`. -/
theorem c4_no_state_leak_without_global_decl_witness :
    globalDecls [Stmt.assign "x" (Expr.lit (Value.int 1))] = [] ∧
    ((executeAgentCode [Stmt.assign "x" (Expr.lit (Value.int 1))] safeGlobals
        world0 hostSys).2.1 = safeGlobals ∧
     (executeAgentCode [Stmt.assign "result" (Expr.lit (Value.int 2))]
        (executeAgentCode [Stmt.assign "x" (Expr.lit (Value.int 1))]
          safeGlobals world0 hostSys).2.1 world0 hostSys).1 =
       (executeAgentCode [Stmt.assign "result" (Expr.lit (Value.int 2))]
          safeGlobals world0 hostSys).1) :=
  ⟨rfl,
   c4_no_state_leak_without_global_decl
     [Stmt.assign "x" (Expr.lit (Value.int 1))]
     [Stmt.assign "result" (Expr.lit (Value.int 2))]
     safeGlobals world0 hostSys hostSys rfl⟩

/-- C5: a validated program that compiles and completes without a
fault and never binds the reserved name `result` yields an envelope
whose `result` field is the absent value `None` and whose `success`
flag is still true. -/
theorem c5_unassigned_result_absent (p : Program) (g : Globals) (w : World)
    (sys : SysState) (st1 : ExecSt)
    (_hval : (validateCode p).valid = true)
    (hcomp : compileErrorsOf p = [])
    (hrun : runStmts w p { globals := g, locals := [], output := "" } =
      (st1, Option.none))
    (hbind : "result" ∉ progBinds p) :
    envGet (executeCode p g w sys).1 "result" = some Value.none ∧
    envGet (executeCode p g w sys).1 "success" = some (Value.bool true) := by
  have henv := executeCode_ok_envelope p g w sys st1 hcomp hrun
  have hres : lookupStr st1.locals "result" = Option.none := by
    have hl := runStmts_lookup_not_bound w p
      { globals := g, locals := [], output := "" } "result" hbind
    rw [hrun] at hl
    simpa [lookupStr] using hl
  rw [henv, hres]
  refine ⟨?_, ?_⟩ <;> simp [envGet, lookupStr, setKey, initialEnvelope]

/-- Witness for C5 at the program `x = 1`. -/
theorem c5_unassigned_result_absent_witness :
    ((validateCode [Stmt.assign "x" (Expr.lit (Value.int 1))]).valid = true ∧
     "result" ∉ progBinds [Stmt.assign "x" (Expr.lit (Value.int 1))]) ∧
    (envGet (executeCode [Stmt.assign "x" (Expr.lit (Value.int 1))] safeGlobals
        world0 hostSys).1 "result" = some Value.none ∧
     envGet (executeCode [Stmt.assign "x" (Expr.lit (Value.int 1))] safeGlobals
        world0 hostSys).1 "success" = some (Value.bool true)) :=
  ⟨⟨by decide, by decide⟩,
   c5_unassigned_result_absent [Stmt.assign "x" (Expr.lit (Value.int 1))]
     safeGlobals world0 hostSys
     { globals := safeGlobals, locals := [("x", Value.int 1)], output := "" }
     (by decide) rfl rfl (by decide)⟩

/-- C6: saving a skill and invoking it with an argument mapping
produces exactly the envelope of `execute_agent_code` applied to the
template with every bracketed marker textually replaced by the string
form of the corresponding value. -/
theorem c6_skill_roundtrip (a : Agent) (s t : String)
    (m : List (String × Value)) (g : Globals) (w : World) (sys : SysState) :
    (a.save_skill s t).execute_skill s m g w sys =
      executeAgentCodeStr (substituteArgs t m) g w sys := by
  simp only [Agent.execute_skill, Agent.save_skill, lookupStr_setKey_self]

/-- C7: a program that calls `get_document` with an identifier
unknown to the mock store and assigns the returned value to `result`
executes successfully: the envelope has top-level `success=true` and
the capability-level `Document not found` error dict nested inside
the `result` field. -/
theorem c7_unknown_document_is_capability_error (did : String) (w : World)
    (sys : SysState) (h : did ≠ "abc123") :
    envGet (executeAgentCode (getDocumentProgram did) safeGlobals w sys).1
      "success" = some (Value.bool true) ∧
    envGet (executeAgentCode (getDocumentProgram did) safeGlobals w sys).1
      "result" = some (Value.dict (VDict.cons "success" (Value.bool true)
        (VDict.cons "result" documentNotFoundDict VDict.nil))) := by
  have hbeq : (did == "abc123") = false := by simpa using h
  have hnorm : executeAgentCode (getDocumentProgram did) safeGlobals w sys =
      ([("success", Value.bool true), ("output", Value.str ""),
        ("result", Value.dict (VDict.cons "success" (Value.bool true)
          (VDict.cons "result"
            (if (did == "abc123") = true then knownDocumentDict
             else documentNotFoundDict) VDict.nil))),
        ("error", Value.none)],
       safeGlobals, sys) := rfl
  rw [hnorm]
  refine ⟨?_, ?_⟩ <;> simp [envGet, lookupStr, hbeq]

/-- Witness for C7 at the unknown identifier `nonexistent`. -/
theorem c7_unknown_document_is_capability_error_witness :
    ("nonexistent" ≠ "abc123") ∧
    envGet (executeAgentCode (getDocumentProgram "nonexistent") safeGlobals
      world0 hostSys).1 "success" = some (Value.bool true) :=
  ⟨by decide,
   (c7_unknown_document_is_capability_error "nonexistent" world0 hostSys
     (by decide)).1⟩

/-- C8: on every exit path of `execute_code` — a non-empty restricted
compilation error log, a `None` compiled form, normal completion, or
a fault raised during execution — the process-wide stdout and stderr
channels are restored to their pre-call values. -/
theorem c8_streams_restored_on_every_path (p : Program) (g : Globals)
    (w : World) (sys : SysState) :
    (executeCode p g w sys).2.2.stdout = sys.stdout ∧
    (executeCode p g w sys).2.2.stderr = sys.stderr := by
  simp only [executeCode]
  split
  · exact ⟨rfl, rfl⟩
  · exact ⟨rfl, rfl⟩
  · split <;> exact ⟨rfl, rfl⟩

/-- C9: validation flags an import only when an alias name exactly
equals a deny-list entry: the dotted submodule `import os.path` and
the from-import `from os import system` both validate with an empty
error list, and `execute_agent_code` proceeds to the interpreter. -/
theorem c9_alias_exact_match_only (g : Globals) (w : World) (sys : SysState) :
    validateCode [Stmt.importStmt ["os.path"]] =
      { valid := true, errors := [] } ∧
    validateCode [Stmt.importFrom "os" ["system"]] =
      { valid := true, errors := [] } ∧
    executeAgentCode [Stmt.importStmt ["os.path"]] g w sys =
      executeCode [Stmt.importStmt ["os.path"]] g w sys ∧
    executeAgentCode [Stmt.importFrom "os" ["system"]] g w sys =
      executeCode [Stmt.importFrom "os" ["system"]] g w sys :=
  ⟨rfl, rfl, rfl, rfl⟩

/-- C10: every program that passes validation and compiles under the
restricted grammar yields an envelope whose `output` field is the
empty string: no accepted program can write to the captured stdout
buffer. With `_print_` bound to the identity lambda the compiled
print-collector protocol faults before writing, no builtin named
`print` is exposed, and the capability functions never print, so the
buffer stays empty on both the fault-free and fault paths. -/
theorem c10_accepted_programs_write_no_output (p : Program) (g : Globals)
    (w : World) (sys : SysState)
    (_hval : (validateCode p).valid = true)
    (hcomp : compileErrorsOf p = []) :
    envGet (executeCode p g w sys).1 "output" = some (Value.str "") := by
  rcases hr : runStmts w p { globals := g, locals := [], output := "" }
    with ⟨st1, f⟩
  have hout : st1.output = "" := by
    have hoe := runStmts_output_eq w p { globals := g, locals := [], output := "" }
    rw [hr] at hoe
    exact hoe
  cases f with
  | none =>
      have henv := executeCode_ok_envelope p g w sys st1 hcomp hr
      rw [henv, hout]
      simp [envGet, lookupStr, setKey, initialEnvelope]
  | some msg =>
      have henv := executeCode_fault_envelope p g w sys st1 msg hcomp hr
      rw [henv, hout]
      simp [envGet, lookupStr, setKey, initialEnvelope]

/-- Witness for C10 at the program `x = 1`. -/
theorem c10_accepted_programs_write_no_output_witness :
    ((validateCode [Stmt.assign "x" (Expr.lit (Value.int 1))]).valid = true ∧
     compileErrorsOf [Stmt.assign "x" (Expr.lit (Value.int 1))] = []) ∧
    envGet (executeCode [Stmt.assign "x" (Expr.lit (Value.int 1))] safeGlobals
      world0 hostSys).1 "output" = some (Value.str "") :=
  ⟨⟨by decide, by decide⟩,
   c10_accepted_programs_write_no_output [Stmt.assign "x" (Expr.lit (Value.int 1))]
     safeGlobals world0 hostSys (by decide) (by decide)⟩

end CodeExec
